import Mathlib

/-!
Verification of the link-shortener mutation layer
(`src/lib/mutations/link-mutations.ts` together with the repository in
`src/lib/repositories/link-repository.ts` and the drizzle schema in
`src/db/schema.ts`).

The mutations are server actions over an external store.  We embed them as
pure functions over an explicit store (a list of link records), threading

* a failure-injection oracle `fail : Event → Option String` that models a
  repository call rejecting (a thrown store error),
* an event trace recording every repository call and every invocation of
  the random code generator, and
* explicit parameters for the external collaborators: the authenticated
  identity (`Option String`, from Clerk's `auth()`), the URL validator
  (`validUrl : String → Bool`, modelling zod's `z.string().url()` check,
  an external library predicate), the randomness source, and the values
  the database assigns on insert (`newId`, `now`).

Exceptions inside the `try` block (zod validation errors and store errors)
are modelled with `Except Thrown`; the surrounding `catch` is the
`runCatch` wrapper, which maps a zod error to its first issue message and
any other error to the operation's generic message, exactly as the source's
`catch (error)` block does.
-/

namespace LinkShortener

/-- A persisted link record (`shortLinks.$inferSelect` from `src/db/schema.ts`);
timestamps are abstracted to naturals. -/
structure Link where
  id : String
  userId : String
  originalUrl : String
  shortCode : String
  createdAt : Nat
  updatedAt : Nat
deriving Repr, DecidableEq

/-- The link store: the `short_links` table as a list of rows in insertion
order. -/
abbrev Store := List Link

/-- Observable events: one per repository call issued by the mutation layer,
plus one per invocation of the random code generator. -/
inductive Event where
  | findByShortCode (code : String)
  | findById (id : String)
  | insert (userId originalUrl shortCode : String)
  | update (id : String) (originalUrl shortCode : Option String)
  | delete (id : String)
  | generate
deriving Repr, DecidableEq

/-- Result shape of every mutating operation:
`{ success: true, data: link }` or `{ error: message }`. -/
inductive MutationResult where
  | success (link : Link)
  | error (msg : String)
deriving Repr, DecidableEq

/-- An exception raised inside the `try` block: either a zod validation
error (carrying `error.errors[0].message`) or a store-level failure. -/
inductive Thrown where
  | zodError (msg : String)
  | storeError (msg : String)
deriving Repr, DecidableEq

/- Message strings, verbatim from the source. -/

def msgAuth : String := "Você precisa estar autenticado"

def msgUrlInvalid : String := "URL inválida. Por favor, insira uma URL válida."

def msgCodeMin : String := "O código deve ter pelo menos 3 caracteres."

def msgCodeMax : String := "O código deve ter no máximo 20 caracteres."

def msgCodeCharset : String := "O código deve conter apenas letras, números, hífens e underscores."

def msgIdRequired : String := "ID do link é obrigatório"

def msgCodeTaken : String := "Este código já está em uso. Por favor, escolha outro."

def msgExhausted : String := "Não foi possível gerar um código único. Tente novamente."

def msgNotFound : String := "Link não encontrado"

def msgNoPermDelete : String := "Você não tem permissão para excluir este link"

def msgNoPermEdit : String := "Você não tem permissão para editar este link"

def msgCreateFailed : String := "Erro ao criar link"

def msgUpdateFailed : String := "Erro ao atualizar link"

def msgDeleteFailed : String := "Erro ao excluir link"

/-- The generator's alphabet, verbatim from `generateShortCode`. -/
def characters : String :=
  "abcdefghijklmnopqrstuvwxyzABCDEFGHIJKLMNOPQRSTUVWXYZ0123456789"

/-- JS `String.prototype.charAt`: the one-character string at the index, or
the empty string when the index is out of range. -/
def charAt (s : String) (i : Nat) : String :=
  match s.data[i]? with
  | some c => String.singleton c
  | none => ""

/-- `generateShortCode` from the source: seven characters of `characters`,
indexed by the randomness source `rnd` (the source computes
`Math.floor(Math.random() * characters.length)`, so each value lies in
`[0, 62)`; we keep `rnd` abstract and state that range as a hypothesis). -/
def generateShortCode (rnd : Nat → Nat) : String :=
  (List.range 7).foldl (fun code i => code ++ charAt characters (rnd i)) ""

/-- The string produced by the `j`-th call to `generateShortCode` within one
request, when the calls consume consecutive blocks of seven random draws. -/
def genFrom (rnd : Nat → Nat) (j : Nat) : String :=
  generateShortCode (fun i => rnd (7 * j + i))

/-- A character accepted by the zod regex `^[a-zA-Z0-9-_]+$`. -/
def validCodeChar (c : Char) : Bool :=
  c.isAlphanum || c == '-' || c == '_'

/-- First zod issue for a supplied custom code, in chain order
(`min(3)`, `max(20)`, `regex`); `none` when the code is valid. -/
def codeIssue (code : String) : Option String :=
  if code.length < 3 then some msgCodeMin
  else if code.length > 20 then some msgCodeMax
  else if !(code.data.all validCodeChar) then some msgCodeCharset
  else none

/-- JS truthiness of an optional string (`undefined` and `""` are falsy). -/
def truthyStr : Option String → Bool
  | none => false
  | some s => !(s == "")

/-- Argument of `createShortLink`. -/
structure CreateInput where
  url : String
  customCode : Option String
deriving Repr, DecidableEq

/-- Argument of `updateShortLink`. -/
structure UpdateInput where
  id : String
  url : String
  customCode : Option String
deriving Repr, DecidableEq

/-- `createLinkSchema.parse`: the first issue message, or `none` on success
(zod reports field issues in shape order: `url`, then `customCode`). -/
def parseCreate (validUrl : String → Bool) (input : CreateInput) : Option String :=
  if !(validUrl input.url) then some msgUrlInvalid
  else
    match input.customCode with
    | none => none
    | some c => codeIssue c

/-- `updateLinkSchema.parse`: first issue in shape order
(`id`, `url`, `customCode`). -/
def parseUpdate (validUrl : String → Bool) (input : UpdateInput) : Option String :=
  if input.id.length < 1 then some msgIdRequired
  else if !(validUrl input.url) then some msgUrlInvalid
  else
    match input.customCode with
    | none => none
    | some c => codeIssue c

/-- `deleteLinkSchema.parse` on `{ id }`. -/
def parseDelete (i : String) : Option String :=
  if i.length < 1 then some msgIdRequired else none

/-- `linkRepository.findByShortCode`: first row whose `shortCode` matches
(the query is `where eq(shortCode) limit 1`). -/
def findSC (s : Store) (code : String) : Option Link :=
  s.find? (fun l => l.shortCode == code)

/-- `linkRepository.findById`. -/
def findId (s : Store) (i : String) : Option Link :=
  s.find? (fun l => l.id == i)

/-- The row assembled by `linkRepository.create`: the database assigns
`id`, `createdAt` and `updatedAt`. -/
def mkLink (newId userId url code : String) (now : Nat) : Link :=
  { id := newId, userId := userId, originalUrl := url, shortCode := code,
    createdAt := now, updatedAt := now }

/-- Apply a drizzle `set` with optional fields (`undefined` fields are
ignored); the schema's `$onUpdate` refreshes `updatedAt`. -/
def applyUpd (now : Nat) (urlOpt codeOpt : Option String) (l : Link) : Link :=
  { l with originalUrl := urlOpt.getD l.originalUrl,
           shortCode := codeOpt.getD l.shortCode,
           updatedAt := now }

/-- `linkRepository.update`: update the rows matching the id, return the
first updated row or `none`. -/
def updateLink (s : Store) (i : String) (urlOpt codeOpt : Option String)
    (now : Nat) : Option Link × Store :=
  match findId s i with
  | none => (none, s)
  | some l =>
      (some (applyUpd now urlOpt codeOpt l),
       s.map (fun x => if x.id == i then applyUpd now urlOpt codeOpt x else x))

/-- `linkRepository.deleteById`: remove the rows matching the id, return the
first removed row or `none`. -/
def deleteLink (s : Store) (i : String) : Option Link × Store :=
  match findId s i with
  | none => (none, s)
  | some l => (some l, s.filter (fun x => !(x.id == i)))

/-- The failure-injection oracle under which every repository call
succeeds. -/
def noFail : Event → Option String := fun _ => none

/-- The collision-retry loop of `createShortLink`
(`while (existing && attempts < 10) { shortCode = generateShortCode();
existing = await findByShortCode(shortCode); attempts++; }`).
`k` is the index of the next generator call; on entry to the loop the
initial candidate was generator call `0`, so the loop is entered with
`k = 1` and `attempts = 0`.  Returns the final `shortCode`, `existing` and
`attempts` values (or a thrown store error), together with the events of
the iterations performed. -/
def genRetry (fail : Event → Option String) (gen : Nat → String) (store : Store)
    (k : Nat) (code : String) (existing : Option Link) (attempts : Nat) :
    Except String (String × Option Link × Nat) × List Event :=
  if h : existing.isSome = true ∧ attempts < 10 then
    let c := gen k
    match fail (Event.findByShortCode c) with
    | some m => (Except.error m, [Event.generate, Event.findByShortCode c])
    | none =>
        let r := genRetry fail gen store (k + 1) c (findSC store c) (attempts + 1)
        (r.1, Event.generate :: Event.findByShortCode c :: r.2)
  else
    (Except.ok (code, existing, attempts), [])
termination_by 10 - attempts
decreasing_by omega

/-- The events of the retry iterations `k, k+1, …, k+n-1`: a generator call
followed by a lookup of the generated candidate. -/
def retryTrace (gen : Nat → String) (k n : Nat) : List Event :=
  match n with
  | 0 => []
  | m + 1 => Event.generate :: Event.findByShortCode (gen k) :: retryTrace gen (k + 1) m

/-- The final `linkRepository.create` call of `createShortLink`, given the
events already emitted. -/
def doInsert (fail : Event → Option String) (newId : String) (now : Nat)
    (userId url code : String) (store : Store) (pre : List Event) :
    Except Thrown MutationResult × Store × List Event :=
  match fail (Event.insert userId url code) with
  | some m => (Except.error (Thrown.storeError m), store,
               pre ++ [Event.insert userId url code])
  | none =>
      let l := mkLink newId userId url code now
      (Except.ok (MutationResult.success l), store ++ [l],
       pre ++ [Event.insert userId url code])

/-- Body of the `try` block of `createShortLink`. -/
def createBody (fail : Event → Option String) (gen : Nat → String)
    (validUrl : String → Bool) (newId : String) (now : Nat)
    (auth : Option String) (input : CreateInput) (store : Store) :
    Except Thrown MutationResult × Store × List Event :=
  match auth with
  | none => (Except.ok (MutationResult.error msgAuth), store, [])
  | some userId =>
      match parseCreate validUrl input with
      | some m => (Except.error (Thrown.zodError m), store, [])
      | none =>
          if truthyStr input.customCode then
            let code := input.customCode.getD ""
            match fail (Event.findByShortCode code) with
            | some m => (Except.error (Thrown.storeError m), store,
                         [Event.findByShortCode code])
            | none =>
                match findSC store code with
                | some _ => (Except.ok (MutationResult.error msgCodeTaken), store,
                             [Event.findByShortCode code])
                | none =>
                    doInsert fail newId now userId input.url code store
                      [Event.findByShortCode code]
          else
            let c0 := gen 0
            match fail (Event.findByShortCode c0) with
            | some m => (Except.error (Thrown.storeError m), store,
                         [Event.generate, Event.findByShortCode c0])
            | none =>
                match genRetry fail gen store 1 c0 (findSC store c0) 0 with
                | (Except.error m, t) =>
                    (Except.error (Thrown.storeError m), store,
                     Event.generate :: Event.findByShortCode c0 :: t)
                | (Except.ok (code, _, attempts), t) =>
                    if attempts ≥ 10 then
                      (Except.ok (MutationResult.error msgExhausted), store,
                       Event.generate :: Event.findByShortCode c0 :: t)
                    else
                      doInsert fail newId now userId input.url code store
                        (Event.generate :: Event.findByShortCode c0 :: t)

/-- The `catch` block: a zod error surfaces its first issue message, any
other thrown error becomes the operation's generic message. -/
def runCatch (generic : String)
    (r : Except Thrown MutationResult × Store × List Event) :
    MutationResult × Store × List Event :=
  match r with
  | (Except.ok res, s, t) => (res, s, t)
  | (Except.error (Thrown.zodError m), s, t) => (MutationResult.error m, s, t)
  | (Except.error (Thrown.storeError _), s, t) => (MutationResult.error generic, s, t)

/-- `createShortLink` from `src/lib/mutations/link-mutations.ts`. -/
def createShortLink (fail : Event → Option String) (gen : Nat → String)
    (validUrl : String → Bool) (newId : String) (now : Nat)
    (auth : Option String) (input : CreateInput) (store : Store) :
    MutationResult × Store × List Event :=
  runCatch msgCreateFailed (createBody fail gen validUrl newId now auth input store)

/-- The final `linkRepository.update` call of `updateShortLink`, given the
events already emitted. -/
def updFinish (fail : Event → Option String) (now : Nat)
    (input : UpdateInput) (store : Store) (pre : List Event) :
    Except Thrown MutationResult × Store × List Event :=
  match fail (Event.update input.id (some input.url) input.customCode) with
  | some m => (Except.error (Thrown.storeError m), store,
               pre ++ [Event.update input.id (some input.url) input.customCode])
  | none =>
      match updateLink store input.id (some input.url) input.customCode now with
      | (none, s) => (Except.ok (MutationResult.error msgUpdateFailed), s,
                      pre ++ [Event.update input.id (some input.url) input.customCode])
      | (some u, s) => (Except.ok (MutationResult.success u), s,
                        pre ++ [Event.update input.id (some input.url) input.customCode])

/-- Body of the `try` block of `updateShortLink`. -/
def updateBody (fail : Event → Option String) (validUrl : String → Bool)
    (now : Nat) (auth : Option String) (input : UpdateInput) (store : Store) :
    Except Thrown MutationResult × Store × List Event :=
  match auth with
  | none => (Except.ok (MutationResult.error msgAuth), store, [])
  | some userId =>
      match parseUpdate validUrl input with
      | some m => (Except.error (Thrown.zodError m), store, [])
      | none =>
          match fail (Event.findById input.id) with
          | some m => (Except.error (Thrown.storeError m), store,
                       [Event.findById input.id])
          | none =>
              match findId store input.id with
              | none => (Except.ok (MutationResult.error msgNotFound), store,
                         [Event.findById input.id])
              | some link =>
                  if link.userId == userId then
                    if truthyStr input.customCode
                        && !(input.customCode.getD "" == link.shortCode) then
                      let c := input.customCode.getD ""
                      match fail (Event.findByShortCode c) with
                      | some m => (Except.error (Thrown.storeError m), store,
                                   [Event.findById input.id, Event.findByShortCode c])
                      | none =>
                          match findSC store c with
                          | some _ =>
                              (Except.ok (MutationResult.error msgCodeTaken), store,
                               [Event.findById input.id, Event.findByShortCode c])
                          | none =>
                              updFinish fail now input store
                                [Event.findById input.id, Event.findByShortCode c]
                    else
                      updFinish fail now input store [Event.findById input.id]
                  else
                    (Except.ok (MutationResult.error msgNoPermEdit), store,
                     [Event.findById input.id])

/-- `updateShortLink` from `src/lib/mutations/link-mutations.ts`. -/
def updateShortLink (fail : Event → Option String) (validUrl : String → Bool)
    (now : Nat) (auth : Option String) (input : UpdateInput) (store : Store) :
    MutationResult × Store × List Event :=
  runCatch msgUpdateFailed (updateBody fail validUrl now auth input store)

/-- Body of the `try` block of `deleteShortLink`. -/
def deleteBody (fail : Event → Option String) (auth : Option String)
    (i : String) (store : Store) :
    Except Thrown MutationResult × Store × List Event :=
  match auth with
  | none => (Except.ok (MutationResult.error msgAuth), store, [])
  | some userId =>
      match parseDelete i with
      | some m => (Except.error (Thrown.zodError m), store, [])
      | none =>
          match fail (Event.findById i) with
          | some m => (Except.error (Thrown.storeError m), store, [Event.findById i])
          | none =>
              match findId store i with
              | none => (Except.ok (MutationResult.error msgNotFound), store,
                         [Event.findById i])
              | some link =>
                  if link.userId == userId then
                    match fail (Event.delete i) with
                    | some m => (Except.error (Thrown.storeError m), store,
                                 [Event.findById i, Event.delete i])
                    | none =>
                        match deleteLink store i with
                        | (none, s) =>
                            (Except.ok (MutationResult.error msgDeleteFailed), s,
                             [Event.findById i, Event.delete i])
                        | (some d, s) =>
                            (Except.ok (MutationResult.success d), s,
                             [Event.findById i, Event.delete i])
                  else
                    (Except.ok (MutationResult.error msgNoPermDelete), store,
                     [Event.findById i])

/-- `deleteShortLink` from `src/lib/mutations/link-mutations.ts`. -/
def deleteShortLink (fail : Event → Option String) (auth : Option String)
    (i : String) (store : Store) : MutationResult × Store × List Event :=
  runCatch msgDeleteFailed (deleteBody fail auth i store)

/-- Whether an event is an insert into the store. -/
def isInsert : Event → Bool
  | Event.insert _ _ _ => true
  | _ => false

/-- A supplied optional custom code that passes validation (or is absent). -/
def optCodeOK : Option String → Bool
  | none => true
  | some c => (codeIssue c).isNone

end LinkShortener

namespace LinkShortener

/-! ## Helper lemmas -/

lemma length_pos_of_ne_empty {s : String} (h : s ≠ "") : ¬(s.length < 1) := by
  simp only [Nat.lt_one_iff]
  intro h0
  exact h (String.ext (List.length_eq_zero.mp h0))

lemma codeIssue_ne_empty {c : String} (h : codeIssue c = none) : (c == "") = false := by
  by_contra hne
  have : c = "" := by
    cases hbe : c == "" with
    | false => exact absurd hbe hne
    | true => exact eq_of_beq hbe
  subst this
  simp [codeIssue, msgCodeMin] at h

lemma genRetry_stop (fail : Event → Option String) (gen : Nat → String)
    (store : Store) (k : Nat) (code : String) (existing : Option Link)
    (attempts : Nat) (h : ¬(existing.isSome = true ∧ attempts < 10)) :
    genRetry fail gen store k code existing attempts
      = (Except.ok (code, existing, attempts), []) := by
  unfold genRetry
  rw [dif_neg h]

lemma genRetry_step (gen : Nat → String) (store : Store) (k : Nat)
    (code : String) (e : Option Link) (attempts : Nat)
    (he : e.isSome = true) (ha : attempts < 10) :
    genRetry noFail gen store k code e attempts
      = ((genRetry noFail gen store (k + 1) (gen k)
            (findSC store (gen k)) (attempts + 1)).1,
         Event.generate :: Event.findByShortCode (gen k) ::
           (genRetry noFail gen store (k + 1) (gen k)
             (findSC store (gen k)) (attempts + 1)).2) := by
  conv_lhs => rw [genRetry]
  rw [dif_pos ⟨he, ha⟩]
  rfl

/-- When the candidate entering the loop and every regenerated candidate up
to generator call `9` collide, the loop runs its full budget: it exits with
`attempts = 10` and the final candidate is generator call `10` — whatever
that final lookup returned. -/
lemma genRetry_exhaust (gen : Nat → String) (store : Store) :
    ∀ n a (code : String) (e : Option Link), a + n = 10 → 0 < n →
      e.isSome = true →
      (∀ j, a + 1 ≤ j → j ≤ 9 → (findSC store (gen j)).isSome = true) →
      genRetry noFail gen store (a + 1) code e a
        = (Except.ok (gen 10, findSC store (gen 10), 10),
           retryTrace gen (a + 1) n) := by
  intro n
  induction n with
  | zero => intro a code e _ h0 _ _; omega
  | succ m ih =>
    intro a code e hsum _ he hcoll
    rw [genRetry_step gen store (a + 1) code e a he (by omega)]
    by_cases hm : m = 0
    · subst hm
      have ha : a = 9 := by omega
      subst ha
      rw [genRetry_stop noFail gen store 11 (gen 10)
            (findSC store (gen 10)) 10 (by simp)]
      simp [retryTrace]
    · have h1 : (a + 1) + m = 10 := by omega
      have he1 : (findSC store (gen (a + 1))).isSome = true :=
        hcoll (a + 1) (le_refl _) (by omega)
      have hcoll1 : ∀ j, (a + 1) + 1 ≤ j → j ≤ 9 →
          (findSC store (gen j)).isSome = true := by
        intro j hj1 hj2
        exact hcoll j (by omega) hj2
      rw [ih (a + 1) (gen (a + 1)) (findSC store (gen (a + 1))) h1
            (by omega) he1 hcoll1]
      simp [retryTrace]

lemma retryTrace_no_insert (gen : Nat → String) :
    ∀ n k, (retryTrace gen k n).countP (fun e => isInsert e) = 0 := by
  intro n
  induction n with
  | zero => intro k; rfl
  | succ m ih =>
      intro k
      simp only [retryTrace, List.countP_cons]
      rw [ih (k + 1)]
      rfl

lemma update_forbidden (validUrl : String → Bool) (now : Nat) (b i url : String)
    (codeOpt : Option String) (store : Store) (L : Link)
    (hv : validUrl url = true) (hcode : optCodeOK codeOpt = true) (hi : i ≠ "")
    (hfind : findId store i = some L) (hown : L.userId ≠ b) :
    updateShortLink noFail validUrl now (some b) ⟨i, url, codeOpt⟩ store
      = (MutationResult.error msgNoPermEdit, store, [Event.findById i]) := by
  have hlen := length_pos_of_ne_empty hi
  have hbeq : (L.userId == b) = false := by
    simp only [beq_eq_false_iff_ne, ne_eq]
    exact hown
  unfold updateShortLink updateBody
  have hparse : parseUpdate validUrl ⟨i, url, codeOpt⟩ = none := by
    unfold parseUpdate
    simp only [hlen, if_false, hv, Bool.not_true]
    cases codeOpt with
    | none => rfl
    | some c =>
        simp only [optCodeOK, Option.isNone_iff_eq_none] at hcode
        simp [hcode]
  rw [hparse]
  simp only [noFail, hfind, hbeq]
  rfl

lemma delete_forbidden (b i : String) (store : Store) (L : Link)
    (hi : i ≠ "") (hfind : findId store i = some L) (hown : L.userId ≠ b) :
    deleteShortLink noFail (some b) i store
      = (MutationResult.error msgNoPermDelete, store, [Event.findById i]) := by
  have hlen := length_pos_of_ne_empty hi
  have hbeq : (L.userId == b) = false := by
    simp only [beq_eq_false_iff_ne, ne_eq]
    exact hown
  unfold deleteShortLink deleteBody
  simp only [parseDelete, hlen, if_false, noFail, hfind, hbeq]
  rfl

lemma update_notfound (validUrl : String → Bool) (now : Nat) (b i url : String)
    (codeOpt : Option String) (store : Store)
    (hv : validUrl url = true) (hcode : optCodeOK codeOpt = true) (hi : i ≠ "")
    (hfind : findId store i = none) :
    updateShortLink noFail validUrl now (some b) ⟨i, url, codeOpt⟩ store
      = (MutationResult.error msgNotFound, store, [Event.findById i]) := by
  have hlen := length_pos_of_ne_empty hi
  unfold updateShortLink updateBody
  have hparse : parseUpdate validUrl ⟨i, url, codeOpt⟩ = none := by
    unfold parseUpdate
    simp only [hlen, if_false, hv, Bool.not_true]
    cases codeOpt with
    | none => rfl
    | some c =>
        simp only [optCodeOK, Option.isNone_iff_eq_none] at hcode
        simp [hcode]
  rw [hparse]
  simp only [noFail, hfind]
  rfl

lemma delete_notfound (b i : String) (store : Store)
    (hi : i ≠ "") (hfind : findId store i = none) :
    deleteShortLink noFail (some b) i store
      = (MutationResult.error msgNotFound, store, [Event.findById i]) := by
  have hlen := length_pos_of_ne_empty hi
  unfold deleteShortLink deleteBody
  simp only [parseDelete, hlen, if_false, noFail, hfind]
  rfl

lemma charAt_len : ∀ n, n < 62 → (charAt characters n).length = 1 := by decide

lemma charAt_alnum : ∀ n, n < 62 →
    (charAt characters n).data.all Char.isAlphanum = true := by decide

lemma generateShortCode_spec (rnd : Nat → Nat) (h : ∀ i, i < 7 → rnd i < 62) :
    (generateShortCode rnd).length = 7 ∧
      (generateShortCode rnd).data.all Char.isAlphanum = true := by
  have hr : List.range 7 = [0, 1, 2, 3, 4, 5, 6] := rfl
  unfold generateShortCode
  rw [hr]
  simp only [List.foldl]
  constructor
  · simp only [String.length_append]
    rw [charAt_len _ (h 0 (by omega)), charAt_len _ (h 1 (by omega)),
        charAt_len _ (h 2 (by omega)), charAt_len _ (h 3 (by omega)),
        charAt_len _ (h 4 (by omega)), charAt_len _ (h 5 (by omega)),
        charAt_len _ (h 6 (by omega))]
    rfl
  · have hd : ∀ s t : String, (s ++ t).data = s.data ++ t.data := fun _ _ => rfl
    simp only [hd, List.all_append]
    rw [charAt_alnum _ (h 0 (by omega)), charAt_alnum _ (h 1 (by omega)),
        charAt_alnum _ (h 2 (by omega)), charAt_alnum _ (h 3 (by omega)),
        charAt_alnum _ (h 4 (by omega)), charAt_alnum _ (h 5 (by omega)),
        charAt_alnum _ (h 6 (by omega))]
    rfl

lemma create_empty_store (rnd : Nat → Nat) (validUrl : String → Bool)
    (newId : String) (now : Nat) (u url : String) (hv : validUrl url = true) :
    createShortLink noFail (genFrom rnd) validUrl newId now (some u) ⟨url, none⟩ []
      = (MutationResult.success (mkLink newId u url (genFrom rnd 0) now),
         [mkLink newId u url (genFrom rnd 0) now],
         [Event.generate, Event.findByShortCode (genFrom rnd 0),
          Event.insert u url (genFrom rnd 0)]) := by
  have hstop : genRetry noFail (genFrom rnd) [] 1 (genFrom rnd 0) none 0
      = (Except.ok (genFrom rnd 0, none, 0), []) := by
    unfold genRetry
    rw [dif_neg]
    simp
  unfold createShortLink createBody
  simp only [parseCreate, hv, Bool.not_true, truthyStr, noFail, findSC,
    List.find?_nil]
  rw [hstop]
  simp [doInsert, runCatch, mkLink, noFail]

end LinkShortener

namespace LinkShortener

/-! ## Claim theorems -/

/-- Claim C1: when `createShortLink` is called without a custom code and
every candidate the generator produces (the initial candidate, generator
call `0`, and all ten regenerations, calls `1`–`10`) already exists in the
store, the call fails with the code-exhausted error after exactly ten retry
iterations of the collision loop (the `attempts` counter reaches `10`),
the store is unchanged, and the trace contains no insert. -/
theorem createShortLink_code_exhausted_after_ten_retries
    (gen : Nat → String) (validUrl : String → Bool) (newId : String) (now : Nat)
    (u url : String) (store : Store)
    (hv : validUrl url = true)
    (hcoll : ∀ j, j ≤ 10 → (findSC store (gen j)).isSome = true) :
    createShortLink noFail gen validUrl newId now (some u) ⟨url, none⟩ store
      = (MutationResult.error msgExhausted, store,
         Event.generate :: Event.findByShortCode (gen 0) :: retryTrace gen 1 10)
    ∧ (Event.generate :: Event.findByShortCode (gen 0) ::
        retryTrace gen 1 10).countP (fun e => isInsert e) = 0 := by
  constructor
  · have hstep := genRetry_exhaust gen store 10 0 (gen 0) (findSC store (gen 0))
      (by omega) (by omega) (hcoll 0 (by omega)) (fun j hj1 hj2 => hcoll j (by omega))
    unfold createShortLink createBody
    simp only [parseCreate, hv, Bool.not_true, if_false, truthyStr, noFail]
    rw [hstep]
    rfl
  · simp only [List.countP_cons]
    rw [retryTrace_no_insert gen 10 1]
    rfl

/-- Witness for C1: a constant generator whose candidate is already taken. -/
theorem createShortLink_code_exhausted_after_ten_retries_witness :
    createShortLink noFail (fun _ => "col7777") (fun _ => true) "id9" 3 (some "u1")
        ⟨"https://example.com", none⟩
        [mkLink "1" "u2" "https://x.com" "col7777" 0]
      = (MutationResult.error msgExhausted,
         [mkLink "1" "u2" "https://x.com" "col7777" 0],
         Event.generate :: Event.findByShortCode "col7777" ::
           retryTrace (fun _ => "col7777") 1 10)
    ∧ (Event.generate :: Event.findByShortCode "col7777" ::
        retryTrace (fun _ => "col7777") 1 10).countP (fun e => isInsert e) = 0 :=
  createShortLink_code_exhausted_after_ten_retries (fun _ => "col7777")
    (fun _ => true) "id9" 3 "u1" "https://example.com"
    [mkLink "1" "u2" "https://x.com" "col7777" 0] rfl (by decide)

/-- Claim C2 counterexample: the claim says update/delete by a non-owner
always yields Forbidden regardless of the payload's validity, but zod
validation runs before the ownership check.  Here link `1` is owned by
`u1` and the caller is `u2`, yet with the invalid `targetUrl` `"bad"` the
call returns the InvalidInput URL message, not the Forbidden message. -/
theorem update_forbidden_claim_counterexample :
    (updateShortLink noFail (fun s => s == "https://ok") 5 (some "u2")
        ⟨"1", "bad", none⟩
        [mkLink "1" "u1" "https://example.com" "abc1234" 0]).1
      = MutationResult.error msgUrlInvalid
    ∧ MutationResult.error msgUrlInvalid ≠ MutationResult.error msgNoPermEdit := by
  exact ⟨rfl, by decide⟩

/-- Claim C2 (amended): for any link L owned by A and any caller B ≠ A,
`updateShortLink` and `deleteShortLink` yield the Forbidden error whenever
the payload passes validation (well-formed URL, valid-or-absent custom
code, non-empty link id); an invalid payload is instead rejected as
InvalidInput before the ownership check. -/
theorem ownership_forbidden_valid_payload
    (validUrl : String → Bool) (now : Nat) (b i url : String)
    (codeOpt : Option String) (store : Store) (L : Link)
    (hv : validUrl url = true) (hcode : optCodeOK codeOpt = true) (hi : i ≠ "")
    (hfind : findId store i = some L) (hown : L.userId ≠ b) :
    updateShortLink noFail validUrl now (some b) ⟨i, url, codeOpt⟩ store
      = (MutationResult.error msgNoPermEdit, store, [Event.findById i])
    ∧ deleteShortLink noFail (some b) i store
      = (MutationResult.error msgNoPermDelete, store, [Event.findById i]) :=
  ⟨update_forbidden validUrl now b i url codeOpt store L hv hcode hi hfind hown,
   delete_forbidden b i store L hi hfind hown⟩

/-- Witness for the amended C2. -/
theorem ownership_forbidden_valid_payload_witness :
    updateShortLink noFail (fun _ => true) 5 (some "u2")
        ⟨"1", "https://x.com", none⟩
        [mkLink "1" "u1" "https://example.com" "abc1234" 0]
      = (MutationResult.error msgNoPermEdit,
         [mkLink "1" "u1" "https://example.com" "abc1234" 0],
         [Event.findById "1"])
    ∧ deleteShortLink noFail (some "u2") "1"
        [mkLink "1" "u1" "https://example.com" "abc1234" 0]
      = (MutationResult.error msgNoPermDelete,
         [mkLink "1" "u1" "https://example.com" "abc1234" 0],
         [Event.findById "1"]) :=
  ownership_forbidden_valid_payload (fun _ => true) 5 "u2" "1" "https://x.com"
    none [mkLink "1" "u1" "https://example.com" "abc1234" 0]
    (mkLink "1" "u1" "https://example.com" "abc1234" 0) rfl rfl (by decide) rfl
    (by decide)

/-- Claim C3: when `createShortLink` is called with a (valid) custom code
and a link with that code already exists (whatever its owner), the call
fails with the code-conflict error, the store is unchanged, and the trace
is a single lookup of the requested code itself — no generator call, no
retry, no insert. -/
theorem createShortLink_custom_code_conflict
    (gen : Nat → String) (validUrl : String → Bool) (newId : String) (now : Nat)
    (u url c : String) (store : Store) (L : Link)
    (hv : validUrl url = true) (hci : codeIssue c = none)
    (hex : findSC store c = some L) :
    createShortLink noFail gen validUrl newId now (some u) ⟨url, some c⟩ store
      = (MutationResult.error msgCodeTaken, store, [Event.findByShortCode c]) := by
  have hc := codeIssue_ne_empty hci
  unfold createShortLink createBody
  simp [parseCreate, hv, hci, truthyStr, hc, noFail, hex, runCatch]

/-- Witness for C3: the spec's Scenario C (`desiredCode = "taken"`). -/
theorem createShortLink_custom_code_conflict_witness :
    createShortLink noFail (fun _ => "zzzzzzz") (fun _ => true) "id9" 3 (some "u1")
        ⟨"https://x.com", some "taken"⟩
        [mkLink "2" "other" "https://other.com" "taken" 0]
      = (MutationResult.error msgCodeTaken,
         [mkLink "2" "other" "https://other.com" "taken" 0],
         [Event.findByShortCode "taken"]) :=
  createShortLink_custom_code_conflict (fun _ => "zzzzzzz") (fun _ => true)
    "id9" 3 "u1" "https://x.com" "taken"
    [mkLink "2" "other" "https://other.com" "taken" 0]
    (mkLink "2" "other" "https://other.com" "taken" 0) rfl rfl rfl

/-- Claim C4: updating an owned link with a custom code equal to its current
code performs no `findByShortCode` lookup (the trace is exactly the id
lookup followed by the update) and succeeds with the updated record,
given a valid URL. -/
theorem updateShortLink_same_code_skips_conflict_lookup
    (validUrl : String → Bool) (now : Nat) (u i url : String) (store : Store)
    (L : Link) (hv : validUrl url = true) (hfind : findId store i = some L)
    (hown : L.userId = u) (hci : codeIssue L.shortCode = none) (hi : i ≠ "") :
    updateShortLink noFail validUrl now (some u) ⟨i, url, some L.shortCode⟩ store
      = (MutationResult.success (applyUpd now (some url) (some L.shortCode) L),
         (updateLink store i (some url) (some L.shortCode) now).2,
         [Event.findById i, Event.update i (some url) (some L.shortCode)]) := by
  have hlen := length_pos_of_ne_empty hi
  have hc := codeIssue_ne_empty hci
  have hbeq : (L.userId == u) = true := by simp [hown]
  unfold updateShortLink updateBody
  have hparse : parseUpdate validUrl ⟨i, url, some L.shortCode⟩ = none := by
    unfold parseUpdate
    simp [hlen, hv, hci]
  rw [hparse]
  simp only [noFail, hfind, hbeq, if_true, truthyStr, hc, Bool.not_false,
    Option.getD_some, beq_self_eq_true, Bool.not_true, Bool.and_false, if_false]
  unfold updFinish
  simp only [noFail]
  unfold updateLink
  simp only [hfind]
  rfl

/-- Witness for C4. -/
theorem updateShortLink_same_code_skips_conflict_lookup_witness :
    updateShortLink noFail (fun _ => true) 5 (some "u1")
        ⟨"1", "https://new.com", some "abc1234"⟩
        [mkLink "1" "u1" "https://example.com" "abc1234" 0]
      = (MutationResult.success
           (applyUpd 5 (some "https://new.com") (some "abc1234")
             (mkLink "1" "u1" "https://example.com" "abc1234" 0)),
         (updateLink [mkLink "1" "u1" "https://example.com" "abc1234" 0] "1"
           (some "https://new.com") (some "abc1234") 5).2,
         [Event.findById "1",
          Event.update "1" (some "https://new.com") (some "abc1234")]) :=
  updateShortLink_same_code_skips_conflict_lookup (fun _ => true) 5 "u1" "1"
    "https://new.com" [mkLink "1" "u1" "https://example.com" "abc1234" 0]
    (mkLink "1" "u1" "https://example.com" "abc1234" 0) rfl rfl rfl rfl
    (by decide)

/-- Claim C5 counterexample: the claim says every `linkId` absent from the
store yields NotFound, but the empty id `""` (absent from the empty store)
is rejected by validation with the id-required message instead. -/
theorem notfound_claim_counterexample :
    (deleteShortLink noFail (some "u1") "" []).1 = MutationResult.error msgIdRequired
    ∧ MutationResult.error msgIdRequired ≠ MutationResult.error msgNotFound := by
  exact ⟨rfl, by decide⟩

/-- Claim C5 (amended): the id lookup happens before the ownership check,
so the two failures are distinguishable: for an authenticated caller and a
payload passing validation, a non-empty link id absent from the store
yields NotFound (update and delete), and an existing link with a different
owner yields Forbidden (update and delete) — never the other way around.
An empty link id is instead rejected by validation as InvalidInput. -/
theorem lookup_before_ownership_distinguishable :
    (∀ (validUrl : String → Bool) (now : Nat) (b i url : String)
        (codeOpt : Option String) (store : Store),
      validUrl url = true → optCodeOK codeOpt = true → i ≠ "" →
      findId store i = none →
      updateShortLink noFail validUrl now (some b) ⟨i, url, codeOpt⟩ store
        = (MutationResult.error msgNotFound, store, [Event.findById i]))
    ∧ (∀ (b i : String) (store : Store), i ≠ "" → findId store i = none →
      deleteShortLink noFail (some b) i store
        = (MutationResult.error msgNotFound, store, [Event.findById i]))
    ∧ (∀ (validUrl : String → Bool) (now : Nat) (b i url : String)
        (codeOpt : Option String) (store : Store) (L : Link),
      validUrl url = true → optCodeOK codeOpt = true → i ≠ "" →
      findId store i = some L → L.userId ≠ b →
      updateShortLink noFail validUrl now (some b) ⟨i, url, codeOpt⟩ store
        = (MutationResult.error msgNoPermEdit, store, [Event.findById i]))
    ∧ (∀ (b i : String) (store : Store) (L : Link),
      i ≠ "" → findId store i = some L → L.userId ≠ b →
      deleteShortLink noFail (some b) i store
        = (MutationResult.error msgNoPermDelete, store, [Event.findById i])) :=
  ⟨fun validUrl now b i url codeOpt store hv hcode hi hfind =>
      update_notfound validUrl now b i url codeOpt store hv hcode hi hfind,
   fun b i store hi hfind => delete_notfound b i store hi hfind,
   fun validUrl now b i url codeOpt store L hv hcode hi hfind hown =>
      update_forbidden validUrl now b i url codeOpt store L hv hcode hi hfind hown,
   fun b i store L hi hfind hown => delete_forbidden b i store L hi hfind hown⟩

/-- Witness for the amended C5 (including the spec's Scenario E,
`linkId = 999` absent). -/
theorem lookup_before_ownership_distinguishable_witness :
    updateShortLink noFail (fun _ => true) 5 (some "u1")
        ⟨"999", "https://x.com", none⟩ []
      = (MutationResult.error msgNotFound, [], [Event.findById "999"])
    ∧ deleteShortLink noFail (some "u1") "999" []
      = (MutationResult.error msgNotFound, [], [Event.findById "999"])
    ∧ updateShortLink noFail (fun _ => true) 5 (some "u2")
        ⟨"1", "https://x.com", none⟩
        [mkLink "1" "u1" "https://example.com" "abc1234" 0]
      = (MutationResult.error msgNoPermEdit,
         [mkLink "1" "u1" "https://example.com" "abc1234" 0],
         [Event.findById "1"])
    ∧ deleteShortLink noFail (some "u2") "1"
        [mkLink "1" "u1" "https://example.com" "abc1234" 0]
      = (MutationResult.error msgNoPermDelete,
         [mkLink "1" "u1" "https://example.com" "abc1234" 0],
         [Event.findById "1"]) :=
  ⟨lookup_before_ownership_distinguishable.1 (fun _ => true) 5 "u1" "999"
      "https://x.com" none [] rfl rfl (by decide) rfl,
   lookup_before_ownership_distinguishable.2.1 "u1" "999" [] (by decide) rfl,
   lookup_before_ownership_distinguishable.2.2.1 (fun _ => true) 5 "u2" "1"
      "https://x.com" none [mkLink "1" "u1" "https://example.com" "abc1234" 0]
      (mkLink "1" "u1" "https://example.com" "abc1234" 0) rfl rfl (by decide)
      rfl (by decide),
   lookup_before_ownership_distinguishable.2.2.2 "u2" "1"
      [mkLink "1" "u1" "https://example.com" "abc1234" 0]
      (mkLink "1" "u1" "https://example.com" "abc1234" 0) (by decide) rfl
      (by decide)⟩

end LinkShortener

namespace LinkShortener

/-- Claim C6: every mutating operation returns a discriminated result —
either a success carrying the link or an error carrying a message — for
every input, every environment, and every injected store-level failure;
the `catch` boundary maps an injected store failure to the operation's
generic error message instead of letting it propagate. -/
theorem mutations_never_throw :
    (∀ (fail : Event → Option String) (gen : Nat → String)
        (validUrl : String → Bool) (newId : String) (now : Nat)
        (auth : Option String) (input : CreateInput) (store : Store),
      (∃ l, (createShortLink fail gen validUrl newId now auth input store).1
          = MutationResult.success l)
      ∨ (∃ m, (createShortLink fail gen validUrl newId now auth input store).1
          = MutationResult.error m))
    ∧ (∀ (fail : Event → Option String) (validUrl : String → Bool) (now : Nat)
        (auth : Option String) (input : UpdateInput) (store : Store),
      (∃ l, (updateShortLink fail validUrl now auth input store).1
          = MutationResult.success l)
      ∨ (∃ m, (updateShortLink fail validUrl now auth input store).1
          = MutationResult.error m))
    ∧ (∀ (fail : Event → Option String) (auth : Option String) (i : String)
        (store : Store),
      (∃ l, (deleteShortLink fail auth i store).1 = MutationResult.success l)
      ∨ (∃ m, (deleteShortLink fail auth i store).1 = MutationResult.error m))
    ∧ (∀ (msg : String) (gen : Nat → String) (validUrl : String → Bool)
        (newId : String) (now : Nat) (u url : String) (store : Store),
      validUrl url = true →
      (createShortLink (fun _ => some msg) gen validUrl newId now (some u)
          ⟨url, none⟩ store).1 = MutationResult.error msgCreateFailed)
    ∧ (∀ (msg : String) (validUrl : String → Bool) (now : Nat)
        (u i url : String) (store : Store),
      validUrl url = true → i ≠ "" →
      (updateShortLink (fun _ => some msg) validUrl now (some u)
          ⟨i, url, none⟩ store).1 = MutationResult.error msgUpdateFailed)
    ∧ (∀ (msg : String) (u i : String) (store : Store), i ≠ "" →
      (deleteShortLink (fun _ => some msg) (some u) i store).1
        = MutationResult.error msgDeleteFailed) := by
  refine ⟨?_, ?_, ?_, ?_, ?_, ?_⟩
  · intro fail gen validUrl newId now auth input store
    cases h : (createShortLink fail gen validUrl newId now auth input store).1 with
    | success l => exact Or.inl ⟨l, rfl⟩
    | error m => exact Or.inr ⟨m, rfl⟩
  · intro fail validUrl now auth input store
    cases h : (updateShortLink fail validUrl now auth input store).1 with
    | success l => exact Or.inl ⟨l, rfl⟩
    | error m => exact Or.inr ⟨m, rfl⟩
  · intro fail auth i store
    cases h : (deleteShortLink fail auth i store).1 with
    | success l => exact Or.inl ⟨l, rfl⟩
    | error m => exact Or.inr ⟨m, rfl⟩
  · intro msg gen validUrl newId now u url store hv
    unfold createShortLink createBody
    simp [parseCreate, hv, truthyStr, runCatch]
  · intro msg validUrl now u i url store hv hi
    have hlen := length_pos_of_ne_empty hi
    unfold updateShortLink updateBody
    simp [parseUpdate, hv, hlen, runCatch]
  · intro msg u i store hi
    have hlen := length_pos_of_ne_empty hi
    unfold deleteShortLink deleteBody
    simp [parseDelete, hlen, runCatch]

/-- Witness for C6: a concrete run of each conjunct, including a store that
rejects every call. -/
theorem mutations_never_throw_witness :
    ((∃ l, (createShortLink noFail (fun _ => "a1b2c3d") (fun _ => true) "id9" 3
        (some "u1") ⟨"https://example.com", none⟩ []).1
        = MutationResult.success l)
      ∨ (∃ m, (createShortLink noFail (fun _ => "a1b2c3d") (fun _ => true) "id9"
        3 (some "u1") ⟨"https://example.com", none⟩ []).1
        = MutationResult.error m))
    ∧ (createShortLink (fun _ => some "db down") (fun _ => "a1b2c3d")
        (fun _ => true) "id9" 3 (some "u1") ⟨"https://example.com", none⟩ []).1
      = MutationResult.error msgCreateFailed
    ∧ (updateShortLink (fun _ => some "db down") (fun _ => true) 3 (some "u1")
        ⟨"1", "https://example.com", none⟩ []).1
      = MutationResult.error msgUpdateFailed
    ∧ (deleteShortLink (fun _ => some "db down") (some "u1") "1" []).1
      = MutationResult.error msgDeleteFailed :=
  ⟨mutations_never_throw.1 noFail (fun _ => "a1b2c3d") (fun _ => true) "id9" 3
      (some "u1") ⟨"https://example.com", none⟩ [],
   mutations_never_throw.2.2.2.1 "db down" (fun _ => "a1b2c3d") (fun _ => true)
      "id9" 3 "u1" "https://example.com" [] rfl,
   mutations_never_throw.2.2.2.2.1 "db down" (fun _ => true) 3 "u1" "1"
      "https://example.com" [] rfl (by decide),
   mutations_never_throw.2.2.2.2.2 "db down" "u1" "1" [] (by decide)⟩

/-- Claim C7: a `createShortLink` or `updateShortLink` call with an invalid
`targetUrl` is rejected by validation with an InvalidInput message and the
trace is empty — no `findByShortCode`, `findById`, insert or update is
issued and the store is unchanged.  (For update, an empty link id is
reported first, still before any lookup.) -/
theorem invalid_url_rejected_before_any_lookup
    (gen : Nat → String) (validUrl : String → Bool) (newId : String) (now : Nat)
    (u url i : String) (codeOpt : Option String) (store : Store)
    (hv : validUrl url = false) :
    createShortLink noFail gen validUrl newId now (some u) ⟨url, codeOpt⟩ store
      = (MutationResult.error msgUrlInvalid, store, [])
    ∧ updateShortLink noFail validUrl now (some u) ⟨i, url, codeOpt⟩ store
      = (MutationResult.error (if i = "" then msgIdRequired else msgUrlInvalid),
         store, []) := by
  constructor
  · unfold createShortLink createBody
    simp [parseCreate, hv, runCatch]
  · unfold updateShortLink updateBody
    by_cases hi : i = ""
    · subst hi
      simp [parseUpdate, runCatch]
    · have hlen := length_pos_of_ne_empty hi
      simp [parseUpdate, hv, hlen, runCatch, hi]

/-- Witness for C7. -/
theorem invalid_url_rejected_before_any_lookup_witness :
    createShortLink noFail (fun _ => "zzzzzzz") (fun s => s == "https://ok")
        "id9" 3 (some "u1") ⟨"not-a-url", none⟩ []
      = (MutationResult.error msgUrlInvalid, [], [])
    ∧ updateShortLink noFail (fun s => s == "https://ok") 3 (some "u1")
        ⟨"1", "not-a-url", none⟩ []
      = (MutationResult.error
           (if "1" = "" then msgIdRequired else msgUrlInvalid), [], []) :=
  invalid_url_rejected_before_any_lookup (fun _ => "zzzzzzz")
    (fun s => s == "https://ok") "id9" 3 "u1" "not-a-url" "1" none [] rfl

/-- Claim C8: every code the generator produces is exactly seven characters,
all alphanumeric (`[a-zA-Z0-9]`), and a `createShortLink` with no custom
code against the empty store succeeds with such a code and with the
caller's identity as owner. -/
theorem generated_code_seven_alphanumeric
    (rnd : Nat → Nat) (validUrl : String → Bool) (newId : String) (now : Nat)
    (u url : String) (hrnd : ∀ k, rnd k < 62) (hv : validUrl url = true) :
    ((generateShortCode rnd).length = 7
      ∧ (generateShortCode rnd).data.all Char.isAlphanum = true)
    ∧ createShortLink noFail (genFrom rnd) validUrl newId now (some u)
        ⟨url, none⟩ []
      = (MutationResult.success (mkLink newId u url (genFrom rnd 0) now),
         [mkLink newId u url (genFrom rnd 0) now],
         [Event.generate, Event.findByShortCode (genFrom rnd 0),
          Event.insert u url (genFrom rnd 0)])
    ∧ ((genFrom rnd 0).length = 7
      ∧ (genFrom rnd 0).data.all Char.isAlphanum = true)
    ∧ (mkLink newId u url (genFrom rnd 0) now).userId = u := by
  refine ⟨generateShortCode_spec rnd (fun k _ => hrnd k),
    create_empty_store rnd validUrl newId now u url hv,
    generateShortCode_spec (fun k => rnd (7 * 0 + k)) (fun k _ => hrnd _),
    rfl⟩

/-- Witness for C8. -/
theorem generated_code_seven_alphanumeric_witness :
    (((generateShortCode (fun _ => 0)).length = 7
      ∧ (generateShortCode (fun _ => 0)).data.all Char.isAlphanum = true)
    ∧ createShortLink noFail (genFrom (fun _ => 0)) (fun _ => true) "id9" 3
        (some "u1") ⟨"https://example.com", none⟩ []
      = (MutationResult.success
           (mkLink "id9" "u1" "https://example.com" (genFrom (fun _ => 0) 0) 3),
         [mkLink "id9" "u1" "https://example.com" (genFrom (fun _ => 0) 0) 3],
         [Event.generate, Event.findByShortCode (genFrom (fun _ => 0) 0),
          Event.insert "u1" "https://example.com" (genFrom (fun _ => 0) 0)])
    ∧ ((genFrom (fun _ => 0) 0).length = 7
      ∧ (genFrom (fun _ => 0) 0).data.all Char.isAlphanum = true)
    ∧ (mkLink "id9" "u1" "https://example.com" (genFrom (fun _ => 0) 0) 3).userId
        = "u1") :=
  generated_code_seven_alphanumeric (fun _ => 0) (fun _ => true) "id9" 3 "u1"
    "https://example.com" (fun _ => Nat.zero_lt_succ 61) rfl

/-- Claim C9: a delete attempt by a caller who does not own the link fails
with the Forbidden error, the store is returned unchanged, the trace is the
id lookup alone (no delete issued), and the link is still found in the
resulting store. -/
theorem deleteShortLink_forbidden_preserves_store
    (b i : String) (store : Store) (L : Link)
    (hi : i ≠ "") (hfind : findId store i = some L) (hown : L.userId ≠ b) :
    deleteShortLink noFail (some b) i store
      = (MutationResult.error msgNoPermDelete, store, [Event.findById i])
    ∧ findId (deleteShortLink noFail (some b) i store).2.1 i = some L := by
  have h := delete_forbidden b i store L hi hfind hown
  exact ⟨h, by rw [h]; exact hfind⟩

/-- Witness for C9: the spec's Scenario D. -/
theorem deleteShortLink_forbidden_preserves_store_witness :
    deleteShortLink noFail (some "u2") "1"
        [mkLink "1" "u1" "https://example.com" "abc1234" 0]
      = (MutationResult.error msgNoPermDelete,
         [mkLink "1" "u1" "https://example.com" "abc1234" 0],
         [Event.findById "1"])
    ∧ findId (deleteShortLink noFail (some "u2") "1"
        [mkLink "1" "u1" "https://example.com" "abc1234" 0]).2.1 "1"
      = some (mkLink "1" "u1" "https://example.com" "abc1234" 0) :=
  deleteShortLink_forbidden_preserves_store "u2" "1"
    [mkLink "1" "u1" "https://example.com" "abc1234" 0]
    (mkLink "1" "u1" "https://example.com" "abc1234" 0) (by decide) rfl
    (by decide)

/-- Claim C10: when the initial candidate (generator call `0`) and the first
nine regenerations (calls `1`–`9`) all collide, `createShortLink` fails
with the code-exhausted error and performs no insert, even though the tenth
regeneration (call `10`, the eleventh candidate overall) is free — its
lookup still happens, but the `attempts >= 10` check fires regardless. -/
theorem createShortLink_exhausted_despite_free_eleventh
    (gen : Nat → String) (validUrl : String → Bool) (newId : String) (now : Nat)
    (u url : String) (store : Store)
    (hv : validUrl url = true)
    (hcoll : ∀ j, j ≤ 9 → (findSC store (gen j)).isSome = true)
    (hfree : findSC store (gen 10) = none) :
    createShortLink noFail gen validUrl newId now (some u) ⟨url, none⟩ store
      = (MutationResult.error msgExhausted, store,
         Event.generate :: Event.findByShortCode (gen 0) :: retryTrace gen 1 10)
    ∧ (Event.generate :: Event.findByShortCode (gen 0) ::
        retryTrace gen 1 10).countP (fun e => isInsert e) = 0
    ∧ findSC store (gen 10) = none := by
  refine ⟨?_, ?_, hfree⟩
  · have hstep := genRetry_exhaust gen store 10 0 (gen 0) (findSC store (gen 0))
      (by omega) (by omega) (hcoll 0 (by omega)) (fun j hj1 hj2 => hcoll j hj2)
    unfold createShortLink createBody
    simp only [parseCreate, hv, Bool.not_true, if_false, truthyStr, noFail]
    rw [hstep]
    rfl
  · simp only [List.countP_cons]
    rw [retryTrace_no_insert gen 10 1]
    rfl

/-- Witness for C10: candidates `0`–`9` collide, candidate `10` is free. -/
theorem createShortLink_exhausted_despite_free_eleventh_witness :
    createShortLink noFail (fun j => if j ≤ 9 then "col7777" else "free777")
        (fun _ => true) "id9" 3 (some "u1") ⟨"https://example.com", none⟩
        [mkLink "1" "u2" "https://x.com" "col7777" 0]
      = (MutationResult.error msgExhausted,
         [mkLink "1" "u2" "https://x.com" "col7777" 0],
         Event.generate :: Event.findByShortCode "col7777" ::
           retryTrace (fun j => if j ≤ 9 then "col7777" else "free777") 1 10)
    ∧ (Event.generate :: Event.findByShortCode "col7777" ::
        retryTrace (fun j => if j ≤ 9 then "col7777" else "free777") 1 10).countP
        (fun e => isInsert e) = 0
    ∧ findSC [mkLink "1" "u2" "https://x.com" "col7777" 0] "free777" = none :=
  createShortLink_exhausted_despite_free_eleventh
    (fun j => if j ≤ 9 then "col7777" else "free777") (fun _ => true) "id9" 3
    "u1" "https://example.com" [mkLink "1" "u2" "https://x.com" "col7777" 0]
    rfl (by decide) (by decide)

end LinkShortener
